import Mathlib

set_option maxRecDepth 100000

/-!
Verification of the VQL-to-SQL core of cutevariant: a shallow embedding of
`cutevariant/core/querybuilder.py` (filter trees, field resolution, SQL
compilation) and of the guard/dispatch behaviour of `cutevariant/core/command.py`,
together with theorems settling the specification claims about them.

Python strings are modelled by Lean `String`, Python dicts by association
lists, Python `None` by `Option`, and a raised Python exception by the
`Except` error case.
-/

namespace Cutevariant

/-! ## Small string toolkit (Python string semantics) -/

/-- Python's substring test `needle in hay`, as a prefix-scan over the
character lists of the two strings. -/
def listIsPrefix : List Char → List Char → Bool
  | [], _ => true
  | _ :: _, [] => false
  | c :: cs, d :: ds => c = d && listIsPrefix cs ds

/-- Scan of `listIsPrefix` along every suffix of the haystack. -/
def listContains (needle : List Char) : List Char → Bool
  | [] => listIsPrefix needle []
  | c :: cs => listIsPrefix needle (c :: cs) || listContains needle cs

/-- Python's `needle in hay` on strings (substring containment). -/
def strContains (hay needle : String) : Bool :=
  listContains needle.data hay.data

/-- Number of positions of the haystack at which the needle occurs
(counts overlapping occurrences; enough to count disjoint SQL fragments). -/
def listCountOcc (needle : List Char) : List Char → Nat
  | [] => if listIsPrefix needle [] then 1 else 0
  | c :: cs => (if listIsPrefix needle (c :: cs) then 1 else 0) + listCountOcc needle cs

/-- Occurrence count of `needle` in `hay`. -/
def strCountOcc (hay needle : String) : Nat :=
  listCountOcc needle.data hay.data

theorem listIsPrefix_append (p l r : List Char) (h : listIsPrefix p l = true) :
    listIsPrefix p (l ++ r) = true := by
  induction p generalizing l with
  | nil => simp [listIsPrefix]
  | cons c cs ih =>
    cases l with
    | nil => simp [listIsPrefix] at h
    | cons d ds =>
      simp only [listIsPrefix, Bool.and_eq_true] at h ⊢
      exact ⟨h.1, ih ds h.2⟩

theorem listContains_append_left (n l r : List Char) (h : listContains n l = true) :
    listContains n (l ++ r) = true := by
  induction l with
  | nil =>
    cases r with
    | nil => simpa using h
    | cons d ds =>
      simp only [listContains] at h
      cases n with
      | nil => simp [listContains, listIsPrefix]
      | cons c cs => simp [listIsPrefix] at h
  | cons c cs ih =>
    simp only [listContains, Bool.or_eq_true] at h ⊢
    cases h with
    | inl h => exact Or.inl (listIsPrefix_append _ _ _ h)
    | inr h => exact Or.inr (ih h)

theorem listContains_append_right (n l r : List Char) (h : listContains n r = true) :
    listContains n (l ++ r) = true := by
  induction l with
  | nil => simpa using h
  | cons c cs ih =>
    simp only [List.cons_append, listContains, Bool.or_eq_true]
    exact Or.inr ih

/-- Containment in a middle piece of a concatenation lifts to the whole. -/
theorem strContains_middle (a b c needle : String)
    (h : strContains b needle = true) :
    strContains (a ++ b ++ c) needle = true := by
  unfold strContains at h ⊢
  rw [String.data_append, String.data_append]
  exact listContains_append_left _ _ _ (listContains_append_right _ _ _ h)

/-! ## Python `str.upper` and `str.translate` (ASCII fragment)

`str.upper` is modelled on the ASCII letters, the only characters that occur
in VQL operators; `str.maketrans("'\"", "%%")`-based translation replaces the
two quote characters by `%`. -/

/-- First-match association-list lookup (Python dict access). -/
def dictLookup {α : Type} (k : String) : List (String × α) → Option α
  | [] => none
  | (k', v) :: rest => if k' = k then some v else dictLookup k rest

/-- ASCII lower-to-upper character table. -/
def upperTable : List (Char × Char) :=
  [('a', 'A'), ('b', 'B'), ('c', 'C'), ('d', 'D'), ('e', 'E'), ('f', 'F'),
   ('g', 'G'), ('h', 'H'), ('i', 'I'), ('j', 'J'), ('k', 'K'), ('l', 'L'),
   ('m', 'M'), ('n', 'N'), ('o', 'O'), ('p', 'P'), ('q', 'Q'), ('r', 'R'),
   ('s', 'S'), ('t', 'T'), ('u', 'U'), ('v', 'V'), ('w', 'W'), ('x', 'X'),
   ('y', 'Y'), ('z', 'Z')]

/-- Character lookup in an association list of characters. -/
def charLookup (c : Char) : List (Char × Char) → Option Char
  | [] => none
  | (k, v) :: rest => if k = c then some v else charLookup c rest

/-- Uppercase one character (CPython `str.upper`, ASCII fragment). -/
def pyUpperChar (c : Char) : Char :=
  (charLookup c upperTable).getD c

/-- Uppercase a string (CPython `str.upper`, ASCII fragment). -/
def pyUpper (s : String) : String :=
  ⟨s.data.map pyUpperChar⟩

/-- `value.translate(str.maketrans("'\"", "%%"))` on one character. -/
def quoteToPercent (c : Char) : Char :=
  if c = '\'' || c = '"' then '%' else c

/-- `value.translate(str.maketrans("'\"", "%%"))`: both quote characters
become the `%` wildcard, everything else is kept. -/
def pyTranslate (s : String) : String :=
  ⟨s.data.map quoteToPercent⟩

theorem charLookup_mem {c u : Char} {t : List (Char × Char)}
    (h : charLookup c t = some u) : (c, u) ∈ t := by
  induction t with
  | nil => simp [charLookup] at h
  | cons p rest ih =>
    obtain ⟨k, v⟩ := p
    by_cases hk : k = c
    · subst hk
      have hv : v = u := by simpa [charLookup] using h
      subst hv
      exact List.mem_cons_self _ _
    · simp only [charLookup, if_neg hk] at h
      exact List.mem_cons_of_mem _ (ih h)

theorem upperTable_range_fixed :
    ∀ p ∈ upperTable, charLookup p.2 upperTable = none := by decide

theorem pyUpperChar_idem (c : Char) : pyUpperChar (pyUpperChar c) = pyUpperChar c := by
  unfold pyUpperChar
  cases h : charLookup c upperTable with
  | none => simp [h]
  | some u =>
    have hm := charLookup_mem h
    have := upperTable_range_fixed (c, u) hm
    simp [h, this]

theorem pyUpper_idem (s : String) : pyUpper (pyUpper s) = pyUpper s := by
  unfold pyUpper
  simp only [List.map_map]
  apply String.ext
  simp only []
  apply List.map_congr_left
  intro c _
  exact pyUpperChar_idem c

theorem pyTranslate_append (a b : String) :
    pyTranslate (a ++ b) = pyTranslate a ++ pyTranslate b := by
  apply String.ext
  simp [pyTranslate, String.data_append]

/-! ## Data model (querybuilder.py)

A field is either a plain string (`"chr"`, `"variants.chr"`) or the tuple
form `(function_name, argument, field_name)` produced by the VQL parser for
`sample("boby").gt`-style references; `GENOTYPE_FUNC_NAME = "sample"`.
A condition value is an int, a string, a bool, a list of strings
(pre-formatted `IN` lists), or the 2-tuple `("set", name)`
(`SET_FUNC_NAME = "set"`). -/

inductive Field where
  | str (s : String)
  | func (fn arg fld : String)
deriving Repr, DecidableEq

inductive Value where
  | int (n : Int)
  | str (s : String)
  | bool (b : Bool)
  | list (ss : List String)
  | setfn (name : String)
deriving Repr, DecidableEq

/-- A leaf of the filter tree: the 3-key dict `{field, operator, value}`. -/
structure Condition where
  field : Field
  op : String
  value : Value
deriving Repr, DecidableEq

/-- The nested filter dictionary: `{}`, a 3-key condition dict, or a 1-key
dict `{logic_op: [children]}`. -/
inductive FTree where
  | empty
  | cond (c : Condition)
  | logic (op : String) (children : List FTree)
deriving Repr

/-- Python truthiness of the filters dict: only `{}` is falsy. -/
def FTree.truthy : FTree → Bool
  | .empty => false
  | .cond _ => true
  | .logic _ _ => true

/-- A raised Python exception, as the error case of `Except`. -/
inductive PyExc where
  | vqlError (msg : String)
  | attributeErr
  | unboundLocal
deriving Repr, DecidableEq

/-! ## querybuilder.py -- field rendering -/

/-- A `\w` word character of the regex `^(\w+)\.(\w+)` (ASCII fragment). -/
def wordChar (c : Char) : Bool :=
  c.isAlphanum || c = '_'

/-- `re.match(r"^(\w+)\.(\w+)", field)`: a maximal word-character run, a
literal dot, then a second word-character run (the rest of the string is
ignored, as the regex is not end-anchored). -/
def matchTableField (s : String) : Option (String × String) :=
  let cs := s.data
  let t := cs.takeWhile wordChar
  if t.isEmpty then none
  else
    match cs.drop t.length with
    | '.' :: rest =>
      let f := rest.takeWhile wordChar
      if f.isEmpty then none else some (⟨t⟩, ⟨f⟩)
    | _ => none

/-- `field_function_to_sql`: `(sample, boby, gt)` becomes
``​`sample_boby`.`gt`​`` with an optional `AS` alias; a falsy field name
(modelled as `""`) drops the `.field` part. -/
def field_function_to_sql (fn arg fld : String) (use_as : Bool) : String :=
  let suffix := if use_as then " AS '" ++ fn ++ "." ++ arg ++ "." ++ fld ++ "'" else ""
  if fld ≠ "" then "`" ++ fn ++ "_" ++ arg ++ "`.`" ++ fld ++ "`" ++ suffix
  else "`" ++ fn ++ "_" ++ arg ++ "`" ++ suffix

/-- `set_function_to_sql`: the correlated subquery for `("set", name)`. -/
def set_function_to_sql (name : String) : String :=
  "(SELECT value FROM sets WHERE name = '" ++ name ++ "')"

/-- `fields_to_sql`: tuple fields go through `field_function_to_sql`;
`table.field` strings are split by the regex; a bare name is qualified via
`default_tables` when present there and backtick-quoted alone otherwise. -/
def fields_to_sql (field : Field) (default_tables : List (String × String))
    (use_as : Bool) : String :=
  match field with
  | .func fn arg fld => field_function_to_sql fn arg fld use_as
  | .str s =>
    match matchTableField s with
    | some (table, fld) => "`" ++ table ++ "`.`" ++ fld ++ "`"
    | none =>
      match dictLookup s default_tables with
      | some table => "`" ++ table ++ "`.`" ++ s ++ "`"
      | none => "`" ++ s ++ "`"

/-! ## querybuilder.py -- filters_to_flat -/

mutual

/-- `filters_to_flat`: the recursive generator yields every 3-key condition
dict of the nested filters, in pre-order. -/
def filters_to_flat : FTree → List Condition
  | .empty => []
  | .cond c => [c]
  | .logic _ children => flatChildren children

/-- Traversal of a list of children for `filters_to_flat`. -/
def flatChildren : List FTree → List Condition
  | [] => []
  | t :: ts => filters_to_flat t ++ flatChildren ts

end

/-! ## querybuilder.py -- filters_to_sql -/

/-- The intermediate Python value held by the local variable `value` of
`filters_to_sql.recursive` after the string-quoting and set-replacing steps. -/
inductive PyVal where
  | s (v : String)
  | i (n : Int)
  | b (v : Bool)
  | l (vs : List String)
deriving Repr, DecidableEq

/-- The first two value steps of the leaf rendering: an original string is
single-quoted; a `("set", name)` tuple becomes the (unquoted) subquery. -/
def quoteStep : Value → PyVal
  | .str v => .s ("'" ++ v ++ "'")
  | .setfn name => .s (set_function_to_sql name)
  | .int n => .i n
  | .bool b => .b b
  | .list ss => .l ss

/-- CPython `repr` of a string, for the strings reachable here: quotes with
`'` (escaping inner `'`), or with `"` when the string contains `'` but no
`"`. Control-character and backslash escaping is not modelled. -/
def pyRepr (s : String) : String :=
  if strContains s "'" && !(strContains s "\"") then "\"" ++ s ++ "\""
  else "'" ++ (⟨(s.data.map (fun c => if c = '\'' then ['\\', '\''] else [c])).flatten⟩ : String) ++ "'"

/-- CPython `str()` of the intermediate value (the `%s` formatting and the
explicit `str(value)` call). -/
def pyStr : PyVal → String
  | .s v => v
  | .i n => toString n
  | .b true => "True"
  | .b false => "False"
  | .l ss => "[" ++ String.intercalate ", " (ss.map pyRepr) ++ "]"

/-- Leaf rendering of `filters_to_sql.recursive`: uppercase the operator,
quote/replace the value, map `~` to `REGEXP` and `HAS` to `LIKE` (replacing
quote characters of the by-then-quoted string value with `%`; `translate` on
a non-string raises `AttributeError`), resolve the field, leave `IN`/`NOT IN`
values untouched, parenthesise list values, and join with single spaces. -/
def render_condition (c : Condition) (dt : List (String × String)) :
    Except PyExc String :=
  let op1 := pyUpper c.op
  let v1 := quoteStep c.value
  let op2 := if op1 = "~" then "REGEXP" else op1
  let step : Except PyExc (String × PyVal) :=
    if op2 = "HAS" then
      match v1 with
      | .s v => .ok ("LIKE", PyVal.s ("'" ++ pyTranslate v ++ "'"))
      | _ => .error .attributeErr
    else .ok (op2, v1)
  match step with
  | .error e => .error e
  | .ok (op3, v2) =>
    let fieldSql := fields_to_sql c.field dt false
    let valueStr :=
      if op3 = "IN" || op3 = "NOT IN" then pyStr v2
      else
        match v2 with
        | .l ss => "(" ++ String.intercalate "," ss ++ ")"
        | _ => pyStr v2
    .ok (fieldSql ++ " " ++ op3 ++ " " ++ valueStr)

mutual

/-- `filters_to_sql`: an empty dict renders to `""`, a leaf through
`render_condition`, and a logic dict joins its rendered children with the
logical operator, parenthesised unless there is exactly one child. -/
def filters_to_sql : FTree → List (String × String) → Except PyExc String
  | .empty, _ => .ok ""
  | .cond c, dt => render_condition c dt
  | .logic op children, dt =>
    match sqlChildren children dt with
    | .error e => .error e
    | .ok out =>
      if out.length = 1 then .ok (String.intercalate (" " ++ op ++ " ") out)
      else .ok ("(" ++ String.intercalate (" " ++ op ++ " ") out ++ ")")

/-- Left-to-right rendering of a child list for `filters_to_sql`. -/
def sqlChildren : List FTree → List (String × String) → Except PyExc (List String)
  | [], _ => .ok []
  | t :: ts, dt =>
    match filters_to_sql t dt with
    | .error e => .error e
    | .ok s =>
      match sqlChildren ts dt with
      | .error e => .error e
      | .ok rest => .ok (s :: rest)

end

instance {ε α : Type} [DecidableEq ε] [DecidableEq α] : DecidableEq (Except ε α)
  | .error a, .error b =>
    if h : a = b then .isTrue (by rw [h]) else .isFalse (by intro hh; cases hh; exact h rfl)
  | .error _, .ok _ => .isFalse (by intro h; cases h)
  | .ok _, .error _ => .isFalse (by intro h; cases h)
  | .ok a, .ok b =>
    if h : a = b then .isTrue (by rw [h]) else .isFalse (by intro hh; cases hh; exact h rfl)

/-! ## querybuilder.py -- build_query

The body of `build_query` appends clause after clause onto one SQL string;
each block of the Python function is given its own definition below and
`build_query` is their concatenation, in the source's order. -/

/-- `"id" not in col` (negated): substring test on a plain field, element
test on a tuple field. -/
def containsId : Field → Bool
  | .str s => strContains s "id"
  | .func fn arg fld => fn = "id" || arg = "id" || fld = "id"

/-- `list.insert(1, x)`. -/
def insertAt1 (x : String) : List String → List String
  | [] => [x]
  | a :: rest => a :: x :: rest

/-- The aggregate pseudo-column inserted when grouping. -/
def countCol : String :=
  "COUNT(`variants`.`id`) as 'count'"

/-- The `sql_fields` list: the primary id column, then every requested
field not containing `"id"`, rendered with its `AS` alias; grouping inserts
the count pseudo-column at position 1. -/
def bq_sql_fields (fields : List Field) (group_by : List String)
    (default_tables : List (String × String)) : List String :=
  let base := "`variants`.`id`" ::
    (fields.filter (fun col => !containsId col)).map
      (fun col => fields_to_sql col default_tables true)
  if group_by.isEmpty then base else insertAt1 countCol base

/-- `f"SELECT {','.join(sql_fields)} "`. -/
def bq_select (fields : List Field) (group_by : List String)
    (default_tables : List (String × String)) : String :=
  "SELECT " ++ String.intercalate "," (bq_sql_fields fields group_by default_tables) ++ " "

/-- `fields_in_filters`: every filter-tree field rendered to SQL (without
alias). -/
def bq_fields_in_filters (filters : FTree)
    (default_tables : List (String × String)) : List String :=
  (filters_to_flat filters).map (fun c => fields_to_sql c.field default_tables false)

/-- The `need_join_annotations` scan: some rendered column of
`sql_fields + fields_in_filters` contains the substring `"annotations"`. -/
def need_join_annotations (fields : List Field) (group_by : List String)
    (filters : FTree) (default_tables : List (String × String)) : Bool :=
  (bq_sql_fields fields group_by default_tables ++
    bq_fields_in_filters filters default_tables).any
    (fun col => strContains col "annotations")

/-- The annotations `LEFT JOIN` clause, emitted only when the scan fires. -/
def bq_annotations_join (fields : List Field) (group_by : List String)
    (filters : FTree) (default_tables : List (String × String)) : String :=
  if need_join_annotations fields group_by filters default_tables then
    " LEFT JOIN annotations ON annotations.variant_id = variants.id"
  else ""

/-- The selection joins, emitted when `source != "variants"`. -/
def bq_selection_join (source : String) : String :=
  if source = "variants" then ""
  else
    " INNER JOIN selection_has_variant sv ON sv.variant_id = variants.id " ++
    "INNER JOIN selections s ON s.id = sv.selection_id AND s.name = '" ++ source ++ "'"

/-- One per-sample genotype join (`GENOTYPE_FUNC_NAME = "sample"`). -/
def sample_join_text (name : String) (sampleId : Nat) : String :=
  " INNER JOIN sample_has_variant `sample_" ++ name ++ "` ON `sample_" ++ name ++
    "`.variant_id = variants.id AND `sample_" ++ name ++ "`.sample_id = " ++ toString sampleId

/-- The `samples` list: `all_fields = fields_in_filters + fields` is scanned
for tuples whose first component is `"sample"`; the already-rendered filter
columns are plain strings, never tuples. -/
def bq_samples (fields : List Field) (filters : FTree)
    (default_tables : List (String × String)) : List String :=
  (((bq_fields_in_filters filters default_tables).map Field.str) ++ fields).filterMap
    (fun col =>
      match col with
      | .func fn arg _ => if fn = "sample" then some arg else none
      | .str _ => none)

/-- The genotype-join loop: for each collected sample name present in
`samples_ids`, append its join; names absent from `samples_ids` are skipped. -/
def bq_sample_joins (fields : List Field) (filters : FTree)
    (default_tables : List (String × String))
    (samples_ids : List (String × Nat)) : String :=
  (bq_samples fields filters default_tables).foldl
    (fun q name =>
      match dictLookup name samples_ids with
      | some sampleId => q ++ sample_join_text name sampleId
      | none => q) ""

/-- The `WHERE` clause: only rendered for a truthy (non-`{}`) filters dict,
and only appended when the rendering is neither `""` nor `"()"`. -/
def bq_where (filters : FTree) (default_tables : List (String × String)) :
    Except PyExc String :=
  if filters.truthy then
    match filters_to_sql filters default_tables with
    | .error e => .error e
    | .ok wc => .ok (if wc ≠ "" && wc ≠ "()" then " WHERE " ++ wc else "")
  else .ok ""

/-- The `GROUP BY` clause (raw comma-joined names). -/
def bq_group_by (group_by : List String) : String :=
  if group_by.isEmpty then "" else " GROUP BY " ++ String.intercalate "," group_by

/-- Python truthiness of the `order_by` argument. -/
def fieldTruthy : Field → Bool
  | .str s => s ≠ ""
  | .func _ _ _ => true

/-- The `ORDER BY` clause, emitted for a truthy `order_by`. -/
def bq_order_by (order_by : Option Field) (order_desc : Bool)
    (default_tables : List (String × String)) : String :=
  match order_by with
  | none => ""
  | some f =>
    if fieldTruthy f then
      " ORDER BY " ++ fields_to_sql f default_tables false ++ " " ++
        (if order_desc then "DESC" else "ASC")
    else ""

/-- The pagination suffix, emitted for a truthy (non-`None`, non-zero)
`limit`. -/
def bq_limit (limit : Option Nat) (offset : Nat) : String :=
  match limit with
  | none => ""
  | some n => if n = 0 then "" else " LIMIT " ++ toString n ++ " OFFSET " ++ toString offset

/-- `build_query(fields, source, filters, order_by, order_desc, limit,
offset, group_by, default_tables, samples_ids)`: the concatenation of the
clauses above, in the order the Python function appends them; a Python
exception raised while rendering the filters propagates. -/
def build_query (fields : List Field) (source : String) (filters : FTree)
    (order_by : Option Field) (order_desc : Bool) (limit : Option Nat)
    (offset : Nat) (group_by : List String)
    (default_tables : List (String × String))
    (samples_ids : List (String × Nat)) : Except PyExc String :=
  match bq_where filters default_tables with
  | .error e => .error e
  | .ok w =>
    .ok (bq_select fields group_by default_tables ++ "FROM variants" ++
      bq_annotations_join fields group_by filters default_tables ++
      bq_selection_join source ++
      bq_sample_joins fields filters default_tables samples_ids ++
      w ++ bq_group_by group_by ++ bq_order_by order_by order_desc default_tables ++
      bq_limit limit offset)

example :
    build_query [.str "chr", .str "pos"] "variants" .empty none true (some 50) 0 []
      [("chr", "variants"), ("pos", "variants")] [] =
      .ok ("SELECT `variants`.`id`,`variants`.`chr`,`variants`.`pos` FROM variants" ++
        " LIMIT 50 OFFSET 0") := by decide

example :
    build_query [.str "chr", .func "sample" "boby" "gt"] "mysel"
      (.cond ⟨.str "annotations.gene", "=", .str "X"⟩) (some (.str "pos")) true (some 10) 2
      ["chr"] [("chr", "variants"), ("pos", "variants")] [("boby", 3)] =
      .ok ("SELECT `variants`.`id`,COUNT(`variants`.`id`) as 'count',`variants`.`chr`,`sample_boby`.`gt` AS 'sample.boby.gt' FROM variants" ++
        " LEFT JOIN annotations ON annotations.variant_id = variants.id" ++
        " INNER JOIN selection_has_variant sv ON sv.variant_id = variants.id INNER JOIN selections s ON s.id = sv.selection_id AND s.name = 'mysel'" ++
        " INNER JOIN sample_has_variant `sample_boby` ON `sample_boby`.variant_id = variants.id AND `sample_boby`.sample_id = 3" ++
        " WHERE `annotations`.`gene` = 'X'" ++
        " GROUP BY chr" ++
        " ORDER BY `variants`.`pos` DESC" ++
        " LIMIT 10 OFFSET 2") := by decide

example :
    filters_to_sql (.cond ⟨.str "ref", "HAS", .str "test\"x'y"⟩) [] =
      .ok "`ref` LIKE '%test%x%y%'" := by decide

/-! ## command.py -- state model and commands

The sqlite connection is modelled as a state record. The storage
collaborators live in `cutevariant/core/sql.py`, which is not part of the
sources here; they are modelled from the spec's collaborator interface (§6).
The two row-count outcomes of the underlying engine that the commands read
back (`count_query`, `cursor.rowcount`/`lastrowid`) are supplied as oracle
functions in the state, since SQL execution itself is outside the model. -/

/-- The sqlite connection state seen by the commands. -/
structure DB where
  /-- `sql.get_fields`: field name to category (table) mapping. -/
  fieldsCatalog : List (String × String)
  /-- `sql.get_samples`: sample name to id mapping. -/
  samples : List (String × Nat)
  /-- The `selections` table: (rowid, name, count). -/
  selections : List (Nat × String × Nat)
  /-- The `sets` table: names of stored sets. -/
  sets : List String
  /-- Record of the bulk `INSERT INTO selection_has_variant` statements:
  (selection id, materialized query). -/
  materialized : List (Nat × String)
  /-- Oracle for `sql.count_query(conn, sql)`. -/
  countOracle : String → Nat
  /-- Oracle for the bulk insert's `(cursor.rowcount, cursor.lastrowid)`. -/
  execInsert : String → Nat × Nat

/-- The result dict a command returns. -/
inductive CmdResult where
  | success
  | empty
  | created (id : Nat)
  | none
deriving Repr, DecidableEq

/-- Modelled from the spec: `count_query(sql) -> integer` (§6), the row
count the engine reports for a query; an oracle of the state. -/
def count_query (db : DB) (q : String) : Nat :=
  db.countOracle q

/-- Modelled from the spec: `insert_selection(sql, name, count) ->
selection_id` (§6): inserts a selection row and returns its fresh rowid. -/
def insert_selection (db : DB) (name : String) (count : Nat) : Nat × DB :=
  let selection_id := db.selections.length + 1
  (selection_id, { db with selections := db.selections ++ [(selection_id, name, count)] })

/-- Modelled from the spec: `union_variants(sql_a, sql_b) -> sql` (§6). -/
def union_variants (a b : String) : String :=
  a ++ " UNION " ++ b

/-- Modelled from the spec: `subtract_variants(sql_a, sql_b) -> sql` (§6). -/
def subtract_variants (a b : String) : String :=
  a ++ " EXCEPT " ++ b

/-- Modelled from the spec: `intersect_variants(sql_a, sql_b) -> sql` (§6). -/
def intersect_variants (a b : String) : String :=
  a ++ " INTERSECT " ++ b

/-- The shared materialization tail of `create_cmd` and `set_cmd`: count the
query, insert the selection row, bulk-insert the membership pairs (the index
drop/rebuild around it has no observable effect in this state model), and
return `{"id": lastrowid}` when the bulk insert reported rows, else `{}`. -/
def materialize_selection (db : DB) (target sql_query : String) :
    CmdResult × DB :=
  let count := count_query db sql_query
  let (selection_id, db1) := insert_selection db target count
  let db2 := { db1 with materialized := db1.materialized ++ [(selection_id, sql_query)] }
  let (rowcount, lastrowid) := db2.execInsert sql_query
  if rowcount ≠ 0 then (.created lastrowid, db2) else (.empty, db2)

/-- `drop_cmd(conn, feature, name)`: only `selections` and `sets` are
accepted (anything else raises `VQLSyntaxError`); the matching table gets a
`DELETE ... WHERE name = ...` (removing every row of that name, no error
when none exists) and the command returns `{"success": True}`. -/
def drop_cmd (db : DB) (feature name : String) : Except PyExc (CmdResult × DB) :=
  if !(["selections", "sets"].contains feature) then
    .error (.vqlError (feature ++ " doesn't exists"))
  else if feature = "selections" then
    .ok (.success, { db with selections := db.selections.filter (fun r => r.2.1 ≠ name) })
  else if feature = "sets" then
    .ok (.success, { db with sets := db.sets.filter (fun s => s ≠ name) })
  else
    .ok (.none, db)

/-- `create_cmd(conn, target, source, filters)`: reads the two catalogs,
returns `{}` for a null target, otherwise compiles the id-only query with
`limit=None` and materializes it under the target name. -/
def create_cmd (db : DB) (target : Option String) (source : String)
    (filters : FTree) : Except PyExc (CmdResult × DB) :=
  let default_tables := db.fieldsCatalog
  let samples_ids := db.samples
  match target with
  | none => .ok (.empty, db)
  | some t =>
    match build_query [.str "id"] source filters none true none 0 []
        default_tables samples_ids with
    | .error e => .error e
    | .ok sql_query => .ok (materialize_selection db t sql_query)

/-- `set_cmd(conn, target, first, second, operator)`: returns `{}` when any
required argument is null; otherwise compiles the two id-only queries (with
default empty catalogs and filters), combines them with the collaborator
matching `+`/`-`/`&` (any other operator leaves `sql_query` unbound, raising
`UnboundLocalError` at its first use), and materializes the result. -/
def set_cmd (db : DB) (target first second operator : Option String) :
    Except PyExc (CmdResult × DB) :=
  match target, first, second, operator with
  | some t, some fst, some snd, some op =>
    match build_query [.str "id"] fst .empty none true none 0 [] [] [],
          build_query [.str "id"] snd .empty none true none 0 [] [] [] with
    | .ok query_first, .ok query_second =>
      let combined : Option String :=
        if op = "+" then some (union_variants query_first query_second)
        else if op = "-" then some (subtract_variants query_first query_second)
        else if op = "&" then some (intersect_variants query_first query_second)
        else Option.none
      match combined with
      | Option.none => .error .unboundLocal
      | some sql_query => .ok (materialize_selection db t sql_query)
    | .error e, _ => .error e
    | _, .error e => .error e
  | _, _, _, _ => .ok (.empty, db)

/-! ## Shared helper lemmas -/

theorem strContains_append_left (a b needle : String)
    (h : strContains a needle = true) : strContains (a ++ b) needle = true := by
  unfold strContains at h ⊢
  rw [String.data_append]
  exact listContains_append_left _ _ _ h

theorem strContains_append_right (a b needle : String)
    (h : strContains b needle = true) : strContains (a ++ b) needle = true := by
  unfold strContains at h ⊢
  rw [String.data_append]
  exact listContains_append_right _ _ _ h

theorem pyTranslate_data (s : String) :
    (pyTranslate s).data = s.data.map quoteToPercent := rfl

theorem pyTranslate_quote_sandwich (v : String) :
    pyTranslate ("'" ++ v ++ "'") = "%" ++ pyTranslate v ++ "%" := by
  have h1 : pyTranslate "'" = "%" := rfl
  rw [pyTranslate_append, pyTranslate_append, h1]

theorem bq_where_empty (dt : List (String × String)) :
    bq_where .empty dt = .ok "" := rfl

/-- With an empty filters dict, `build_query` is exactly the concatenation
of its clauses with no `WHERE` segment at all. -/
theorem build_query_empty_filters (fields : List Field) (source : String)
    (ob : Option Field) (od : Bool) (lim : Option Nat) (off : Nat)
    (gb : List String) (dt : List (String × String))
    (si : List (String × Nat)) :
    build_query fields source .empty ob od lim off gb dt si =
      .ok (bq_select fields gb dt ++ "FROM variants" ++
        bq_annotations_join fields gb .empty dt ++ bq_selection_join source ++
        bq_sample_joins fields .empty dt si ++ bq_group_by gb ++
        bq_order_by ob od dt ++ bq_limit lim off) := by
  simp only [build_query, bq_where_empty, String.append_empty]

/-! ## Claim C7: flatten returns every leaf condition -/

mutual

/-- Leaf-condition count of a tree (statement-side measure for C7). -/
def countLeaves : FTree → Nat
  | .empty => 0
  | .cond _ => 1
  | .logic _ children => countLeavesL children

/-- Leaf-condition count of a forest. -/
def countLeavesL : List FTree → Nat
  | [] => 0
  | t :: ts => countLeaves t + countLeavesL ts

end

mutual

theorem flat_length : (t : FTree) → (filters_to_flat t).length = countLeaves t
  | .empty => rfl
  | .cond _ => rfl
  | .logic op cs => by
      simp only [filters_to_flat, countLeaves]
      exact flatL_length cs

theorem flatL_length : (ts : List FTree) → (flatChildren ts).length = countLeavesL ts
  | [] => rfl
  | t :: ts => by
      simp only [flatChildren, countLeavesL, List.length_append]
      rw [flat_length t, flatL_length ts]

end

/-- C7: on a well-formed filter tree with N leaf conditions, `filters_to_flat`
returns exactly N items -- the leaf conditions in pre-order (the traversal
order is the definition's recursion order) -- whatever the nesting depth and
whichever logical operators label the inner nodes. -/
theorem claim_C7 :
    (∀ t : FTree, (filters_to_flat t).length = countLeaves t) ∧
    (∀ (op op' : String) (cs : List FTree),
      filters_to_flat (.logic op cs) = filters_to_flat (.logic op' cs)) := by
  refine ⟨flat_length, fun op op' cs => rfl⟩

/-! ## Claim C4: HAS renders to LIKE with quotes replaced by wildcards -/

/-- C4: a `HAS` condition on a string value renders to a `LIKE` predicate
whose quoted value is the original string with every `'` and `"` replaced by
`%` (the surrounding `%` pair comes from the quoting step preceding the
translation); in particular `test"x'y` yields `LIKE '%test%x%y%'`. -/
theorem claim_C4 :
    (∀ (f : Field) (v : String) (dt : List (String × String)),
      filters_to_sql (.cond ⟨f, "HAS", .str v⟩) dt =
        .ok (fields_to_sql f dt false ++ " " ++ "LIKE" ++ " " ++
          ("'" ++ ("%" ++ pyTranslate v ++ "%") ++ "'"))) ∧
    (∀ v : String, (pyTranslate v).data = v.data.map quoteToPercent) ∧
    (∀ c : Char, quoteToPercent c = if c = '\'' || c = '"' then '%' else c) ∧
    filters_to_sql (.cond ⟨.str "ref", "HAS", .str "test\"x'y"⟩) [] =
      .ok "`ref` LIKE '%test%x%y%'" := by
  refine ⟨?_, fun v => rfl, fun c => rfl, by decide⟩
  intro f v dt
  have hred : filters_to_sql (.cond ⟨f, "HAS", .str v⟩) dt =
      .ok (fields_to_sql f dt false ++ " " ++ "LIKE" ++ " " ++
        ("'" ++ pyTranslate ("'" ++ v ++ "'") ++ "'")) := rfl
  rw [hred, pyTranslate_quote_sandwich]

/-! ## Claim C10: operator handling is case-insensitive -/

/-- The comparison operator as it appears in the rendered SQL: uppercased,
with `~` mapped to `REGEXP` and `HAS` to `LIKE`. -/
def rendered_operator (op : String) : String :=
  let u := pyUpper op
  if u = "~" then "REGEXP" else if u = "HAS" then "LIKE" else u

/-- The value part of a rendered leaf, as a function of the already-settled
operator and intermediate value (statement-side restatement for C10). -/
def render_value (op3 : String) (v2 : PyVal) : String :=
  if op3 = "IN" || op3 = "NOT IN" then pyStr v2
  else
    match v2 with
    | .l ss => "(" ++ String.intercalate "," ss ++ ")"
    | _ => pyStr v2

/-- Statement-side restatement of the leaf rendering in terms of
`rendered_operator`: the emitted SQL is always
`field <rendered_operator op> value`, the `HAS` translation step being the
only one that can raise. -/
def render_leaf_alt (f : Field) (op : String) (v : Value)
    (dt : List (String × String)) : Except PyExc String :=
  if pyUpper op = "HAS" then
    match quoteStep v with
    | .s w =>
      .ok (fields_to_sql f dt false ++ " " ++ "LIKE" ++ " " ++
        ("'" ++ pyTranslate w ++ "'"))
    | _ => .error .attributeErr
  else
    .ok (fields_to_sql f dt false ++ " " ++ rendered_operator op ++ " " ++
      render_value (rendered_operator op) (quoteStep v))

/-- C10: rendering a condition is invariant under the letter case of its
operator (the code uppercases the operator before every test); the rendered
condition always carries `rendered_operator op`, which is itself
uppercase-invariant. -/
theorem claim_C10 :
    (∀ (f : Field) (op : String) (v : Value) (dt : List (String × String)),
      filters_to_sql (.cond ⟨f, op, v⟩) dt =
        filters_to_sql (.cond ⟨f, pyUpper op, v⟩) dt) ∧
    (∀ op : String, pyUpper (rendered_operator op) = rendered_operator op) ∧
    (∀ (f : Field) (op : String) (v : Value) (dt : List (String × String)),
      filters_to_sql (.cond ⟨f, op, v⟩) dt = render_leaf_alt f op v dt) := by
  refine ⟨?_, ?_, ?_⟩
  · intro f op v dt
    show render_condition ⟨f, op, v⟩ dt = render_condition ⟨f, pyUpper op, v⟩ dt
    unfold render_condition
    rw [pyUpper_idem]
  · intro op
    unfold rendered_operator
    by_cases h1 : pyUpper op = "~"
    · simp only [h1, if_pos rfl]
      rfl
    · rw [if_neg h1]
      by_cases h2 : pyUpper op = "HAS"
      · rw [if_pos h2]
        rfl
      · rw [if_neg h2]
        exact pyUpper_idem op
  · intro f op v dt
    show render_condition ⟨f, op, v⟩ dt = render_leaf_alt f op v dt
    unfold render_condition render_leaf_alt rendered_operator render_value
    by_cases h1 : pyUpper op = "~"
    · simp [h1]
    · by_cases h2 : pyUpper op = "HAS"
      · simp only [h1, h2, if_neg, if_pos, reduceIte]
        cases quoteStep v <;> simp [h2, pyStr]
      · simp [h1, h2]

/-! ## Claim C5: empty filters never emit a WHERE clause -/

/-- C5: with an empty filter tree the filter renderer returns `""`, the
`WHERE` step contributes nothing, and the compiled query is exactly the
concatenation of the remaining clauses (no `WHERE` segment occurs in it);
a representative full-featured compilation contains no `WHERE` substring. -/
theorem claim_C5 :
    (∀ dt : List (String × String), filters_to_sql .empty dt = .ok "") ∧
    (∀ dt : List (String × String), bq_where .empty dt = .ok "") ∧
    (∀ (fields : List Field) (source : String) (ob : Option Field) (od : Bool)
      (lim : Option Nat) (off : Nat) (gb : List String)
      (dt : List (String × String)) (si : List (String × Nat)),
      build_query fields source .empty ob od lim off gb dt si =
        .ok (bq_select fields gb dt ++ "FROM variants" ++
          bq_annotations_join fields gb .empty dt ++ bq_selection_join source ++
          bq_sample_joins fields .empty dt si ++ bq_group_by gb ++
          bq_order_by ob od dt ++ bq_limit lim off)) ∧
    (build_query [.str "annotations.gene", .func "sample" "boby" "gt"] "mysel" .empty
        (some (.str "pos")) true (some 10) 2 ["chr"] [("pos", "variants")]
        [("boby", 3)]).map (fun q => strContains q "WHERE") = .ok false := by
  exact ⟨fun dt => rfl, bq_where_empty, build_query_empty_filters, by decide⟩

/-! ## Claim C6: a null limit never emits LIMIT/OFFSET -/

/-- C6: with `limit=None` the pagination clause is empty and the compiled
query is exactly the concatenation of the other clauses (no `LIMIT`/`OFFSET`
segment); the suffix is emitted only for a truthy limit; a representative
`limit=None` compilation contains neither substring. -/
theorem claim_C6 :
    (∀ off : Nat, bq_limit Option.none off = "") ∧
    (∀ n off : Nat, bq_limit (some n) off =
      if n = 0 then "" else " LIMIT " ++ toString n ++ " OFFSET " ++ toString off) ∧
    (∀ (fields : List Field) (source : String) (filters : FTree)
      (ob : Option Field) (od : Bool) (off : Nat) (gb : List String)
      (dt : List (String × String)) (si : List (String × Nat)),
      build_query fields source filters ob od Option.none off gb dt si =
        (bq_where filters dt).map (fun w =>
          bq_select fields gb dt ++ "FROM variants" ++
          bq_annotations_join fields gb filters dt ++ bq_selection_join source ++
          bq_sample_joins fields filters dt si ++ w ++ bq_group_by gb ++
          bq_order_by ob od dt)) ∧
    (build_query [.str "annotations.gene", .func "sample" "boby" "gt"] "mysel"
        (.cond ⟨.str "ref", "=", .str "A"⟩) (some (.str "pos")) true Option.none 4
        ["chr"] [("pos", "variants")] [("boby", 3)]).map
      (fun q => strContains q "LIMIT" || strContains q "OFFSET") = .ok false := by
  refine ⟨fun off => rfl, fun n off => rfl, ?_, by decide⟩
  intro fields source filters ob od off gb dt si
  cases hw : bq_where filters dt with
  | error e => simp [build_query, hw, Except.map]
  | ok w => simp [build_query, hw, Except.map, bq_limit, String.append_empty]

/-! ## Claim C2: the compiled column list -/

/-- The amended drop test on requested fields: a plain field is dropped when
it contains `"id"` as a substring, a tuple field when one of its three
components is the string `"id"` (statement-side restatement of the Python
membership test `"id" in col`). -/
def spec_dropped_field : Field → Bool
  | .str s => strContains s "id"
  | .func fn arg fld => fn = "id" || arg = "id" || fld = "id"

/-- C2 counterexample: the requested field `rsid` is not literally named
`"id"`, yet the compiled SELECT drops it (the code tests substring
containment, not equality), so the column list is the identifier column
alone. -/
theorem claim_C2_counterexample :
    build_query [.str "rsid"] "variants" .empty Option.none true Option.none 0 [] [] [] =
      .ok "SELECT `variants`.`id` FROM variants" ∧
    strContains "SELECT `variants`.`id` FROM variants" "rsid" = false ∧
    strContains "rsid" "id" = true := by decide

/-- C2 (amended): the compiled column list is the identifier column
`​`variants`.`id`​`, then (with a COUNT pseudo-column inserted right after it
when grouping) the requested fields in input order, omitting exactly those
requested fields that contain `"id"` -- as a substring for plain fields, as
a component for tuple fields; and with an empty filter tree the query starts
with exactly this SELECT clause. -/
theorem claim_C2_thm :
    (∀ (fields : List Field) (dt : List (String × String)),
      bq_sql_fields fields [] dt =
        "`variants`.`id`" ::
          (fields.filter (fun f => !spec_dropped_field f)).map
            (fun f => fields_to_sql f dt true)) ∧
    (∀ (fields : List Field) (g : String) (gs : List String)
      (dt : List (String × String)),
      bq_sql_fields fields (g :: gs) dt =
        "`variants`.`id`" :: countCol ::
          (fields.filter (fun f => !spec_dropped_field f)).map
            (fun f => fields_to_sql f dt true)) ∧
    (∀ (fields : List Field) (source : String) (ob : Option Field) (od : Bool)
      (lim : Option Nat) (off : Nat) (gb : List String)
      (dt : List (String × String)) (si : List (String × Nat)),
      build_query fields source .empty ob od lim off gb dt si =
        .ok (("SELECT " ++
            String.intercalate "," (bq_sql_fields fields gb dt) ++ " ") ++
          "FROM variants" ++ bq_annotations_join fields gb .empty dt ++
          bq_selection_join source ++ bq_sample_joins fields .empty dt si ++
          bq_group_by gb ++ bq_order_by ob od dt ++ bq_limit lim off)) := by
  refine ⟨fun fields dt => rfl, fun fields g gs dt => rfl, ?_⟩
  intro fields source ob od lim off gb dt si
  exact build_query_empty_filters fields source ob od lim off gb dt si

/-! ## Claim C3: the annotations join condition -/

/-- Whether a field reference resolves to the annotations table in the
claim's sense: an explicit `annotations.` prefix, or a catalog entry mapping
the bare name there; tuple fields resolve to join aliases, never to a
table. -/
def field_refers_to_annotations (f : Field) (dt : List (String × String)) : Bool :=
  match f with
  | .func _ _ _ => false
  | .str s =>
    match matchTableField s with
    | some (table, _) => table = "annotations"
    | none =>
      match dictLookup s dt with
      | some table => table = "annotations"
      | none => false

/-- C3 counterexample: the bare field `my_annotations` resolves to the plain
column `​`my_annotations`​` (it references no table at all), yet because the
code tests for the substring `"annotations"` in the rendered column, the
LEFT JOIN to annotations is emitted, refuting the claimed iff. -/
theorem claim_C3_counterexample :
    field_refers_to_annotations (.str "my_annotations") [] = false ∧
    fields_to_sql (.str "my_annotations") [] true = "`my_annotations`" ∧
    filters_to_flat (.empty : FTree) = [] ∧
    build_query [.str "my_annotations"] "variants" .empty Option.none true
        Option.none 0 [] [] [] =
      .ok ("SELECT `variants`.`id`,`my_annotations` FROM variants" ++
        " LEFT JOIN annotations ON annotations.variant_id = variants.id") ∧
    strContains
      ("SELECT `variants`.`id`,`my_annotations` FROM variants" ++
        " LEFT JOIN annotations ON annotations.variant_id = variants.id")
      "LEFT JOIN annotations" = true := by decide

/-- C3 (amended): the annotations LEFT JOIN is emitted iff some rendered
column among the SELECT columns and the filter-tree fields contains the
substring `"annotations"`; when the scan fails the join clause is empty,
when it fires the produced query contains the join text. -/
theorem claim_C3_thm :
    (∀ (fields : List Field) (gb : List String) (filters : FTree)
      (dt : List (String × String)),
      need_join_annotations fields gb filters dt = true ↔
        ∃ col ∈ bq_sql_fields fields gb dt ++ bq_fields_in_filters filters dt,
          strContains col "annotations" = true) ∧
    (∀ (fields : List Field) (gb : List String) (filters : FTree)
      (dt : List (String × String)),
      need_join_annotations fields gb filters dt = false →
        bq_annotations_join fields gb filters dt = "") ∧
    (∀ (fields : List Field) (gb : List String) (filters : FTree)
      (dt : List (String × String)),
      need_join_annotations fields gb filters dt = true →
        bq_annotations_join fields gb filters dt =
          " LEFT JOIN annotations ON annotations.variant_id = variants.id") ∧
    (∀ (fields : List Field) (source : String) (filters : FTree)
      (ob : Option Field) (od : Bool) (lim : Option Nat) (off : Nat)
      (gb : List String) (dt : List (String × String))
      (si : List (String × Nat)) (q : String),
      build_query fields source filters ob od lim off gb dt si = .ok q →
      need_join_annotations fields gb filters dt = true →
      strContains q
        " LEFT JOIN annotations ON annotations.variant_id = variants.id" = true) := by
  refine ⟨?_, ?_, ?_, ?_⟩
  · intro fields gb filters dt
    exact List.any_eq_true
  · intro fields gb filters dt h
    unfold bq_annotations_join
    rw [h]
    rfl
  · intro fields gb filters dt h
    unfold bq_annotations_join
    rw [h]
    rfl
  · intro fields source filters ob od lim off gb dt si q hq hneed
    have hann : bq_annotations_join fields gb filters dt =
        " LEFT JOIN annotations ON annotations.variant_id = variants.id" := by
      unfold bq_annotations_join
      rw [hneed]
      rfl
    unfold build_query at hq
    cases hw : bq_where filters dt with
    | error e => rw [hw] at hq; cases hq
    | ok w =>
      rw [hw] at hq
      have hq2 : q = bq_select fields gb dt ++ "FROM variants" ++
          bq_annotations_join fields gb filters dt ++ bq_selection_join source ++
          bq_sample_joins fields filters dt si ++ w ++ bq_group_by gb ++
          bq_order_by ob od dt ++ bq_limit lim off := by
        cases hq
        rfl
      rw [hq2]
      apply strContains_append_left
      apply strContains_append_left
      apply strContains_append_left
      apply strContains_append_left
      apply strContains_append_left
      apply strContains_append_left
      apply strContains_append_right
      rw [hann]
      decide

/-- C3 witness: a compilation whose scan fires (field `annotations.gene`)
indeed contains the join text. -/
theorem claim_C3_witness :
    strContains
      ("SELECT `variants`.`id`,`annotations`.`gene` FROM variants" ++
        " LEFT JOIN annotations ON annotations.variant_id = variants.id")
      " LEFT JOIN annotations ON annotations.variant_id = variants.id" = true :=
  claim_C3_thm.2.2.2 [.str "annotations.gene"] "variants" .empty Option.none true
    Option.none 0 [] [] []
    ("SELECT `variants`.`id`,`annotations`.`gene` FROM variants" ++
      " LEFT JOIN annotations ON annotations.variant_id = variants.id")
    (by decide) (by decide)

/-! ## Claim C1: the per-sample genotype joins -/

/-- C1 evaluation at the failing inputs: a genotype field referenced only in
the filter tree produces no sample join at all (the `WHERE` clause then
references the never-joined alias `​`sample_alice`​`), although `alice` is
present in the sample index; and a sample referenced twice in the selected
fields produces two identical joins rather than one per distinct name. -/
theorem claim_C1_code_eval :
    build_query [] "variants"
        (.cond ⟨.func "sample" "alice" "gt", "=", .str "T"⟩) Option.none true
        Option.none 0 [] [] [("alice", 9)] =
      .ok "SELECT `variants`.`id` FROM variants WHERE `sample_alice`.`gt` = 'T'" ∧
    strCountOcc "SELECT `variants`.`id` FROM variants WHERE `sample_alice`.`gt` = 'T'"
      "INNER JOIN sample_has_variant" = 0 ∧
    dictLookup "alice" [("alice", 9)] = some 9 ∧
    (build_query [.func "sample" "alice" "gt", .func "sample" "alice" "dp"]
        "variants" .empty Option.none true Option.none 0 [] [] [("alice", 9)]).map
      (fun q => strCountOcc q "INNER JOIN sample_has_variant") = .ok 2 := by
  decide

/-! ## Claims C8/C9: command-layer guards -/

/-- A concrete connection state used by the witnesses below. -/
def db0 : DB :=
  { fieldsCatalog := []
    samples := []
    selections := [(1, "base", 5)]
    sets := ["wordsetA"]
    materialized := []
    countOracle := fun _ => 0
    execInsert := fun _ => (1, 1) }

/-- C8 counterexample: a null `target` makes `create_cmd` return the empty
no-op dict `{}` -- it does not fail -- and `set_cmd` behaves the same on a
null required argument. -/
theorem claim_C8_counterexample :
    create_cmd db0 Option.none "variants" .empty = .ok (.empty, db0) ∧
    set_cmd db0 Option.none (some "A") (some "B") (some "+") = .ok (.empty, db0) :=
  ⟨rfl, rfl⟩

/-- C8 (amended): `create_cmd` with a null target, and `set_cmd` with any
null required argument, return the empty no-op result `{}` without touching
the state and without raising. -/
theorem claim_C8_thm :
    (∀ (db : DB) (source : String) (filters : FTree),
      create_cmd db Option.none source filters = .ok (.empty, db)) ∧
    (∀ (db : DB) (t f s o : Option String),
      t = Option.none ∨ f = Option.none ∨ s = Option.none ∨ o = Option.none →
      set_cmd db t f s o = .ok (.empty, db)) := by
  refine ⟨fun db source filters => rfl, ?_⟩
  intro db t f s o h
  rcases h with h | h | h | h <;> subst h
  · cases f <;> cases s <;> cases o <;> rfl
  · cases t <;> cases s <;> cases o <;> rfl
  · cases t <;> cases f <;> cases o <;> rfl
  · cases t <;> cases f <;> cases s <;> rfl

/-- C8 witness: the amended theorem applied at a concrete null-argument
invocation. -/
theorem claim_C8_witness :
    set_cmd db0 Option.none (some "A") (some "B") (some "&") = .ok (.empty, db0) :=
  claim_C8_thm.2 db0 Option.none (some "A") (some "B") (some "&") (Or.inl rfl)

/-- C9: `drop_cmd` on `selections`/`sets` deletes every row of that name
(idempotently -- a missing name deletes nothing) and returns
`{"success": True}` for any name whatsoever; any other feature raises. -/
theorem claim_C9 :
    (∀ (db : DB) (name : String),
      drop_cmd db "selections" name =
        .ok (.success,
          { db with selections := db.selections.filter (fun r => r.2.1 ≠ name) })) ∧
    (∀ (db : DB) (name : String),
      drop_cmd db "sets" name =
        .ok (.success, { db with sets := db.sets.filter (fun s => s ≠ name) })) ∧
    (∀ (db : DB) (feature name : String),
      feature ≠ "selections" → feature ≠ "sets" →
      drop_cmd db feature name =
        .error (.vqlError (feature ++ " doesn't exists"))) := by
  refine ⟨fun db name => rfl, fun db name => rfl, ?_⟩
  intro db feature name h1 h2
  have hc : (["selections", "sets"].contains feature) = false := by
    simp [List.contains, h1, h2]
  unfold drop_cmd
  rw [hc]
  rfl

/-- C9 witness: dropping an unknown feature raises, dropping a non-existent
selection succeeds. -/
theorem claim_C9_witness :
    drop_cmd db0 "fields" "x" = .error (.vqlError ("fields" ++ " doesn't exists")) ∧
    drop_cmd db0 "selections" "nosuch" =
      .ok (.success,
        { db0 with selections := db0.selections.filter (fun r => r.2.1 ≠ "nosuch") }) :=
  ⟨claim_C9.2.2 db0 "fields" "x" (by decide) (by decide),
   claim_C9.1 db0 "nosuch"⟩

end Cutevariant
